import Mathlib

/-!
# react-card-deck: the `App` component of `src/App.js`

The component keeps three state hooks (`deck`, `drawnCards`, `isLoading`) and
three async handlers (`fetchNewDeck`, `drawCard`, `shuffleDeck`), each of which
awaits one request to the remote card service.

Embedding.
* The hooks are the record `AppState`.
* A handler is a function that runs up to its `await fetch(...)` and yields an
  `Async` value: either it settled without a request, or it issued a request and
  waits with a continuation. The continuation receives the service's reply and
  the state current at that time (the argument of a functional `setState`); the
  `deck` it writes back is the one its closure captured at render time.
  The two awaits of a handler (`fetch` and `response.json()`) are one suspension:
  nothing happens between them, and a failure of either rejects the handler.
* `alert` calls and requests are recorded as a list of `Effect`s.
* Response bodies are typed by the members the handlers read.
-/

namespace CardDeck

/-! ## Data -/

/-- A card object of a draw response. The component reads `image` only; the
other members of the object are kept as they came. -/
structure Card where
  image : String
  rest : List (String × String)
deriving DecidableEq

/-- The object held by the `deck` hook: the body of the new-deck response.
The handlers read `deck_id` and `remaining`; the other members are kept by the
spread `{ ...deck, remaining: ... }`. -/
structure Deck where
  deck_id : String
  remaining : Nat
  rest : List (String × String)
deriving DecidableEq

/-- Body of a draw response, as read by `drawCard`: `data.remaining`, `data.cards`. -/
structure DrawData where
  remaining : Nat
  cards : List Card
deriving DecidableEq

/-- Body of a shuffle response, as read by `shuffleDeck`: `data.success`, `data.remaining`. -/
structure ShuffleData where
  success : Bool
  remaining : Nat
deriving DecidableEq

/-- The three state hooks of `App` (lines 17-19). -/
structure AppState where
  deck : Option Deck
  drawnCards : List Card
  isLoading : Bool
deriving DecidableEq

/-- Hook values of the first render: `useState(null)`, `useState([])`, `useState(false)`. -/
def initialState : AppState :=
  { deck := none, drawnCards := [], isLoading := false }

/-- What the awaited `fetch(...)` / `response.json()` pair delivers: the parsed
body, or a rejection (network failure or unparsable body). -/
inductive Reply (α : Type) where
  | ok (data : α)
  | failed (error : String)
deriving DecidableEq

/-- Observable actions of a handler besides its state updates. -/
inductive Effect where
  | fetch (url : String)
  | alert (message : String)
deriving DecidableEq

/-- Why the promise of a handler rejected: a read of a member of `null`
(a `TypeError`), or the rejection of the awaited request. -/
inductive Rejection where
  | nullDeck
  | remote (error : String)
deriving DecidableEq

/-- How the promise returned by an async handler settles. No handler has a
`try`/`catch`, so an exception inside it rejects the promise. -/
inductive Outcome where
  | fulfilled
  | rejected (reason : Rejection)
deriving DecidableEq

/-- A finished (part of a) handler: the hook values it leaves, what it did, and
how its promise settled. -/
structure Run where
  state : AppState
  effects : List Effect
  outcome : Outcome
deriving DecidableEq

/-- A handler run up to its first `await`: it settled without a request, or it
issued `fetch url`, left the hooks at `state`, and waits with `resume`. -/
inductive Async (α : Type) where
  | settled (run : Run)
  | awaiting (state : AppState) (url : String) (resume : Reply α → AppState → Run)

/-! ## The handlers -/

/-- Request URL of `fetchNewDeck` (line 26). -/
def newDeckUrl : String :=
  "https://deckofcardsapi.com/api/deck/new/shuffle/?deck_count=1"

/-- Request URL of `drawCard` (line 43), a template over `deck.deck_id`. -/
def drawUrl (deck_id : String) : String :=
  "https://deckofcardsapi.com/api/deck/" ++ deck_id ++ "/draw/?count=1"

/-- Request URL of `shuffleDeck` (line 56), a template over `deck.deck_id`. -/
def shuffleUrl (deck_id : String) : String :=
  "https://deckofcardsapi.com/api/deck/" ++ deck_id ++ "/shuffle/"

/-- Lines 24-31. `setIsLoading(true)`, the request, then
`setDeck(data); setDrawnCards([]); setIsLoading(false)`. -/
def fetchNewDeck (s : AppState) : Async Deck :=
  .awaiting { s with isLoading := true } newDeckUrl fun reply cur =>
    match reply with
    | .failed error => { state := cur, effects := [], outcome := .rejected (.remote error) }
    | .ok data =>
      let s1 := { cur with deck := some data }
      let s2 := { s1 with drawnCards := [] }
      let s3 := { s2 with isLoading := false }
      { state := s3, effects := [], outcome := .fulfilled }

/-- Lines 37-48. The argument `deck` is the hook value captured by the closure
(the render the handler belongs to); `s` holds the hooks when it is invoked. -/
def drawCard (deck : Option Deck) (s : AppState) : Async DrawData :=
  match deck with
  | none => .settled { state := s, effects := [], outcome := .rejected .nullDeck }
  | some deck =>
    if deck.remaining = 0 then
      .settled { state := s, effects := [.alert "Error: no cards remaining!"], outcome := .fulfilled }
    else
      .awaiting { s with isLoading := true } (drawUrl deck.deck_id) fun reply cur =>
        match reply with
        | .failed error => { state := cur, effects := [], outcome := .rejected (.remote error) }
        | .ok data =>
          let s1 := { cur with deck := some { deck with remaining := data.remaining } }
          let s2 := { s1 with drawnCards := s1.drawnCards ++ data.cards }
          let s3 := { s2 with isLoading := false }
          { state := s3, effects := [], outcome := .fulfilled }

/-- Lines 54-65. `setIsLoading(true)` runs before `deck.deck_id` is read for the
request URL, so with a `null` deck the handler rejects with the flag already set. -/
def shuffleDeck (deck : Option Deck) (s : AppState) : Async ShuffleData :=
  let s0 := { s with isLoading := true }
  match deck with
  | none => .settled { state := s0, effects := [], outcome := .rejected .nullDeck }
  | some deck =>
    .awaiting s0 (shuffleUrl deck.deck_id) fun reply cur =>
      match reply with
      | .failed error => { state := cur, effects := [], outcome := .rejected (.remote error) }
      | .ok data =>
        if data.success then
          let s1 := { cur with deck := some { deck with remaining := data.remaining } }
          let s2 := { s1 with drawnCards := [] }
          let s3 := { s2 with isLoading := false }
          { state := s3, effects := [], outcome := .fulfilled }
        else
          let s1 := { cur with isLoading := false }
          { state := s1, effects := [.alert "Error: could not shuffle the deck."], outcome := .fulfilled }

/-! ## Rendering -/

/-- One `<Card key image style />` element (lines 82-89). -/
structure CardView where
  key : Nat
  image : String
  transform : String
  zIndex : Nat
deriving DecidableEq

/-- One `<button onClick disabled>label</button>` element. -/
structure Button (α : Type) where
  onClick : AppState → Async α
  disabled : Bool
  label : String

/-- The element tree returned by `App` (lines 77-99). -/
structure View where
  title : String
  cards : List CardView
  drawButton : Button DrawData
  shuffleButton : Button ShuffleData

/-- The render of `App` for given hook values. The handlers handed to the
buttons close over the `deck` of this render. -/
def App (s : AppState) : View :=
  { title := "Click to Draw!"
    cards := s.drawnCards.enum.map fun (index, card) =>
      { key := index
        image := card.image
        transform := "translate(-50%, -50%) rotate(" ++ toString (index * 5) ++ "deg)"
        zIndex := index }
    drawButton :=
      { onClick := drawCard s.deck
        disabled := s.isLoading
        label := if s.isLoading then "Drawing..." else "Draw Card" }
    shuffleButton :=
      { onClick := shuffleDeck s.deck
        disabled := s.isLoading
        label := if s.isLoading then "Shuffling..." else "Shuffle Deck" } }

/-! ## Running a handler to completion -/

/-- The handler together with the reply to its request, when it issues one:
the request is recorded, then the continuation runs on the state the handler
left (no other handler runs in between). -/
def Async.complete {α : Type} (a : Async α) (reply : Reply α) : Run :=
  match a with
  | .settled run => run
  | .awaiting state url resume =>
    let rest := resume reply state
    { rest with effects := .fetch url :: rest.effects }

/-- The run of `fetchNewDeck` invoked on hooks `s`, with the reply to its request. -/
def runFetchNewDeck (s : AppState) (reply : Reply Deck) : Run :=
  (fetchNewDeck s).complete reply

/-- The run of the `drawCard` of the current render, with the reply to its request. -/
def runDrawCard (s : AppState) (reply : Reply DrawData) : Run :=
  (drawCard s.deck s).complete reply

/-- The run of the `shuffleDeck` of the current render, with the reply to its request. -/
def runShuffleDeck (s : AppState) (reply : Reply ShuffleData) : Run :=
  (shuffleDeck s.deck s).complete reply

/-- Whether the run issued a request to the remote service. -/
def Run.fetched (r : Run) : Bool :=
  r.effects.any fun e => match e with
    | .fetch _ => true
    | .alert _ => false

/-- Number of requests the run issued. -/
def Run.fetchCount (r : Run) : Nat :=
  r.effects.countP fun e => match e with
    | .fetch _ => true
    | .alert _ => false

/-- Hook values after `drawCard` was run once per listed response, one call
after the other, each on the render that follows the previous call. -/
def runDraws (s : AppState) : List DrawData → AppState
  | [] => s
  | data :: later => runDraws (runDrawCard s (.ok data)).state later

/-- Every call of the sequence run by `runDraws` issued its request and
fulfilled (none stopped at the `remaining === 0` guard or at a `null` deck). -/
def drawsSucceed (s : AppState) : List DrawData → Bool
  | [] => true
  | data :: later =>
    (runDrawCard s (.ok data)).fetched
      && decide ((runDrawCard s (.ok data)).outcome = .fulfilled)
      && drawsSucceed (runDrawCard s (.ok data)).state later

/-! ## The mounted component as a transition system -/

/-- A handler suspended at its request, waiting for the reply. -/
structure Pending where
  α : Type
  resume : Reply α → AppState → Run

/-- The component instance: its hooks and the handlers in flight. -/
structure Session where
  app : AppState
  pending : List Pending

/-- Invoking a handler: a settled one leaves its state; a suspended one leaves
its state and joins the handlers in flight. -/
def Session.launch {α : Type} (c : Session) (a : Async α) : Session :=
  match a with
  | .settled run => { c with app := run.state }
  | .awaiting state _ resume => { app := state, pending := ⟨α, resume⟩ :: c.pending }

/-- The component after mounting: the first render on `initialState`, followed
by the effect of lines 69-71, which invokes `fetchNewDeck`. -/
def Session.mounted : Session :=
  Session.launch { app := initialState, pending := [] } (fetchNewDeck initialState)

/-- One event of the mounted component: a click on a button that is not
disabled invokes the handler of the current render; a reply (of any kind)
reaches a handler in flight and runs its continuation on the current hooks. -/
inductive Step : Session → Session → Prop where
  | clickDraw (c : Session) (enabled : (App c.app).drawButton.disabled = false) :
      Step c (c.launch ((App c.app).drawButton.onClick c.app))
  | clickShuffle (c : Session) (enabled : (App c.app).shuffleButton.disabled = false) :
      Step c (c.launch ((App c.app).shuffleButton.onClick c.app))
  | reply (c : Session) (before : List Pending) (p : Pending) (after : List Pending)
      (inFlight : c.pending = before ++ p :: after) (r : Reply p.α) :
      Step c { app := (p.resume r c.app).state, pending := before ++ after }

/-- Sessions the mounted component can be in after any number of events. -/
def Reachable (c : Session) : Prop :=
  Relation.ReflTransGen Step Session.mounted c

/-! ## Invariant of the mounted component -/

/-- The continuation never removes a deck that is there when it runs. -/
def Pending.keepsDeck (p : Pending) : Prop :=
  ∀ (r : Reply p.α) (cur : AppState), cur.deck ≠ none → (p.resume r cur).state.deck ≠ none

/-- Run while the loading flag is set, the continuation ends with a deck or
with the flag still set. -/
def Pending.deckOrLoading (p : Pending) : Prop :=
  ∀ (r : Reply p.α) (cur : AppState), cur.isLoading = true →
    (p.resume r cur).state.deck ≠ none ∨ (p.resume r cur).state.isLoading = true

/-- Invariant of the sessions of the mounted component: no handler in flight
removes the deck, and as long as there is no deck the loading flag is set and
every handler in flight ends with a deck or with the flag still set. -/
def Session.Inv (c : Session) : Prop :=
  (∀ p ∈ c.pending, p.keepsDeck)
    ∧ (c.app.deck ≠ none ∨ (c.app.isLoading = true ∧ ∀ p ∈ c.pending, p.deckOrLoading))

/-! ## Sample values -/

/-- The mounted component after the new-deck response arrived: idle, full
deck, nothing in flight. -/
def readySession : Session :=
  { app := { deck := some { deck_id := "abc", remaining := 52, rest := [] }
             drawnCards := []
             isLoading := false }
    pending := [] }

/-- A sample card. -/
def aceOfSpades : Card :=
  { image := "https://deckofcardsapi.com/static/img/AS.png"
    rest := [("code", "AS"), ("value", "ACE"), ("suit", "SPADES")] }

/-- A second sample card. -/
def kingOfHearts : Card :=
  { image := "https://deckofcardsapi.com/static/img/KH.png"
    rest := [("code", "KH"), ("value", "KING"), ("suit", "HEARTS")] }

/-- A sample new-deck response. -/
def freshDeck : Deck :=
  { deck_id := "abc", remaining := 52, rest := [("success", "true"), ("shuffled", "true")] }

/-- Idle hooks with a full deck and nothing drawn. -/
def idleFull : AppState :=
  { deck := some freshDeck, drawnCards := [], isLoading := false }

/-- Idle hooks with an exhausted deck and one card shown. -/
def idleEmpty : AppState :=
  { deck := some { freshDeck with remaining := 0 }, drawnCards := [aceOfSpades], isLoading := false }

/-- Hooks with the loading flag set, a deck of 51 and one card shown. -/
def busyOne : AppState :=
  { deck := some { freshDeck with remaining := 51 }, drawnCards := [aceOfSpades], isLoading := true }

/-! ## Facts about single runs -/

theorem exists_deck_of_ne_none {deck : Option Deck} (h : deck ≠ none) : ∃ d, deck = some d := by
  cases deck with
  | none => exact absurd rfl h
  | some d => exact ⟨d, rfl⟩

theorem runDrawCard_none (s : AppState) (reply : Reply DrawData) (hdeck : s.deck = none) :
    runDrawCard s reply = { state := s, effects := [], outcome := .rejected .nullDeck } := by
  simp [runDrawCard, drawCard, hdeck, Async.complete]

theorem runDrawCard_zero (s : AppState) (d : Deck) (reply : Reply DrawData)
    (hdeck : s.deck = some d) (hzero : d.remaining = 0) :
    runDrawCard s reply
      = { state := s, effects := [.alert "Error: no cards remaining!"], outcome := .fulfilled } := by
  simp [runDrawCard, drawCard, hdeck, hzero, Async.complete]

theorem runDrawCard_ok (s : AppState) (d : Deck) (data : DrawData)
    (hdeck : s.deck = some d) (hpos : d.remaining ≠ 0) :
    runDrawCard s (.ok data)
      = { state := { deck := some { d with remaining := data.remaining }
                     drawnCards := s.drawnCards ++ data.cards
                     isLoading := false }
          effects := [.fetch (drawUrl d.deck_id)]
          outcome := .fulfilled } := by
  simp [runDrawCard, drawCard, hdeck, hpos, Async.complete]

theorem runDrawCard_failed (s : AppState) (d : Deck) (error : String)
    (hdeck : s.deck = some d) (hpos : d.remaining ≠ 0) :
    runDrawCard s (.failed error)
      = { state := { s with isLoading := true }
          effects := [.fetch (drawUrl d.deck_id)]
          outcome := .rejected (.remote error) } := by
  simp [runDrawCard, drawCard, hdeck, hpos, Async.complete]

theorem runShuffleDeck_none (s : AppState) (reply : Reply ShuffleData) (hdeck : s.deck = none) :
    runShuffleDeck s reply
      = { state := { s with isLoading := true }, effects := [], outcome := .rejected .nullDeck } := by
  simp [runShuffleDeck, shuffleDeck, hdeck, Async.complete]

theorem runShuffleDeck_ok (s : AppState) (d : Deck) (data : ShuffleData)
    (hdeck : s.deck = some d) (hsucc : data.success = true) :
    runShuffleDeck s (.ok data)
      = { state := { deck := some { d with remaining := data.remaining }
                     drawnCards := []
                     isLoading := false }
          effects := [.fetch (shuffleUrl d.deck_id)]
          outcome := .fulfilled } := by
  simp [runShuffleDeck, shuffleDeck, hdeck, hsucc, Async.complete]

theorem runShuffleDeck_refused (s : AppState) (d : Deck) (data : ShuffleData)
    (hdeck : s.deck = some d) (hrej : data.success = false) :
    runShuffleDeck s (.ok data)
      = { state := { s with isLoading := false }
          effects := [.fetch (shuffleUrl d.deck_id), .alert "Error: could not shuffle the deck."]
          outcome := .fulfilled } := by
  simp [runShuffleDeck, shuffleDeck, hdeck, hrej, Async.complete]

theorem runShuffleDeck_failed (s : AppState) (d : Deck) (error : String)
    (hdeck : s.deck = some d) :
    runShuffleDeck s (.failed error)
      = { state := { s with isLoading := true }
          effects := [.fetch (shuffleUrl d.deck_id)]
          outcome := .rejected (.remote error) } := by
  simp [runShuffleDeck, shuffleDeck, hdeck, Async.complete]

theorem runFetchNewDeck_ok (s : AppState) (data : Deck) :
    runFetchNewDeck s (.ok data)
      = { state := { deck := some data, drawnCards := [], isLoading := false }
          effects := [.fetch newDeckUrl]
          outcome := .fulfilled } := by
  simp [runFetchNewDeck, fetchNewDeck, Async.complete]

theorem runFetchNewDeck_failed (s : AppState) (error : String) :
    runFetchNewDeck s (.failed error)
      = { state := { s with isLoading := true }
          effects := [.fetch newDeckUrl]
          outcome := .rejected (.remote error) } := by
  simp [runFetchNewDeck, fetchNewDeck, Async.complete]

/-- A run of `drawCard` issued a request exactly when the deck exists and is
not exhausted. -/
theorem runDrawCard_fetched_iff (s : AppState) (reply : Reply DrawData) :
    (runDrawCard s reply).fetched = true ↔ ∃ d, s.deck = some d ∧ d.remaining ≠ 0 := by
  cases hdeck : s.deck with
  | none => simp [runDrawCard_none s reply hdeck, Run.fetched]
  | some d =>
    by_cases hzero : d.remaining = 0
    · simp [runDrawCard_zero s d reply hdeck hzero, Run.fetched, hzero]
    · cases reply with
      | ok data => simp [runDrawCard_ok s d data hdeck hzero, Run.fetched, hzero]
      | failed error => simp [runDrawCard_failed s d error hdeck hzero, Run.fetched, hzero]

/-- A run of `shuffleDeck` issued a request exactly when the deck exists. -/
theorem runShuffleDeck_fetched_iff (s : AppState) (reply : Reply ShuffleData) :
    (runShuffleDeck s reply).fetched = true ↔ ∃ d, s.deck = some d := by
  cases hdeck : s.deck with
  | none => simp [runShuffleDeck_none s reply hdeck, Run.fetched]
  | some d =>
    cases reply with
    | failed error => simp [runShuffleDeck_failed s d error hdeck, Run.fetched]
    | ok data =>
      cases hsucc : data.success with
      | true => simp [runShuffleDeck_ok s d data hdeck hsucc, Run.fetched]
      | false => simp [runShuffleDeck_refused s d data hdeck hsucc, Run.fetched]

/-- A successful call of `drawCard` appends the cards of its response. -/
theorem runDrawCard_fetched_drawnCards (s : AppState) (data : DrawData)
    (hfetched : (runDrawCard s (.ok data)).fetched = true) :
    (runDrawCard s (.ok data)).state.drawnCards = s.drawnCards ++ data.cards := by
  obtain ⟨d, hdeck, hpos⟩ := (runDrawCard_fetched_iff s (.ok data)).mp hfetched
  rw [runDrawCard_ok s d data hdeck hpos]

/-! ## The claims -/

/-- C1: with a deck whose `remaining` is 0, `drawCard` settles before its
request: whatever the service would reply, the run issues no request, leaves
`deck`, `drawnCards` and `isLoading` as they were, shows the alert
"Error: no cards remaining!" and returns normally. -/
theorem drawCard_exhausted_no_request (s : AppState) (d : Deck) (reply : Reply DrawData)
    (hdeck : s.deck = some d) (hzero : d.remaining = 0) :
    drawCard s.deck s
        = .settled { state := s, effects := [.alert "Error: no cards remaining!"], outcome := .fulfilled }
      ∧ runDrawCard s reply
        = { state := s, effects := [.alert "Error: no cards remaining!"], outcome := .fulfilled }
      ∧ (runDrawCard s reply).fetchCount = 0 := by
  refine ⟨?_, runDrawCard_zero s d reply hdeck hzero, ?_⟩
  · simp [drawCard, hdeck, hzero]
  · simp [runDrawCard_zero s d reply hdeck hzero, Run.fetchCount]

theorem drawCard_exhausted_no_request_witness :
    idleEmpty.deck = some { freshDeck with remaining := 0 }
      ∧ runDrawCard idleEmpty (.ok { remaining := 7, cards := [kingOfHearts] })
        = { state := idleEmpty, effects := [.alert "Error: no cards remaining!"], outcome := .fulfilled }
      ∧ (runDrawCard idleEmpty (.ok { remaining := 7, cards := [kingOfHearts] })).fetchCount = 0 :=
  ⟨rfl, (drawCard_exhausted_no_request idleEmpty { freshDeck with remaining := 0 }
    (.ok { remaining := 7, cards := [kingOfHearts] }) rfl rfl).2⟩

/-- C2: whenever an operation issued its request and the response is a
successful one, the `remaining` of the deck afterwards is the `remaining` of
that response, for every previous state (so whatever the previous `remaining`
was) and every number of cards in the response: for `fetchNewDeck` always, for
`drawCard` whenever it issued the request, for `shuffleDeck` whenever it issued
the request and the response has `success` true. -/
theorem remaining_is_response_remaining (s : AppState) :
    (∀ data : Deck,
        (runFetchNewDeck s (.ok data)).state.deck.map Deck.remaining = some data.remaining)
      ∧ (∀ data : DrawData, (runDrawCard s (.ok data)).fetched = true →
        (runDrawCard s (.ok data)).state.deck.map Deck.remaining = some data.remaining)
      ∧ (∀ data : ShuffleData, (runShuffleDeck s (.ok data)).fetched = true →
        data.success = true →
        (runShuffleDeck s (.ok data)).state.deck.map Deck.remaining = some data.remaining) := by
  refine ⟨fun data => ?_, fun data hfetched => ?_, fun data hfetched hsucc => ?_⟩
  · rw [runFetchNewDeck_ok]; rfl
  · obtain ⟨d, hdeck, hpos⟩ := (runDrawCard_fetched_iff s (.ok data)).mp hfetched
    rw [runDrawCard_ok s d data hdeck hpos]; rfl
  · obtain ⟨d, hdeck⟩ := (runShuffleDeck_fetched_iff s (.ok data)).mp hfetched
    rw [runShuffleDeck_ok s d data hdeck hsucc]; rfl

theorem remaining_is_response_remaining_witness :
    (runFetchNewDeck busyOne (.ok freshDeck)).state.deck.map Deck.remaining = some 52
      ∧ (runDrawCard busyOne (.ok { remaining := 17, cards := [] })).state.deck.map Deck.remaining
        = some 17
      ∧ (runShuffleDeck busyOne (.ok { success := true, remaining := 40 })).state.deck.map
        Deck.remaining = some 40 :=
  ⟨(remaining_is_response_remaining busyOne).1 freshDeck,
   (remaining_is_response_remaining busyOne).2.1 { remaining := 17, cards := [] } (by decide),
   (remaining_is_response_remaining busyOne).2.2 { success := true, remaining := 40 }
     (by decide) rfl⟩

/-- C3: after a sequence of calls of `drawCard` run one after another, each of
which issued its request and got a successful response, `drawnCards` is the
starting sequence followed by the cards of the responses, in call order and in
the order of each response; its length grew by the sum of the numbers of cards
returned. -/
theorem runDraws_appends_in_order (s : AppState) (responses : List DrawData)
    (hall : drawsSucceed s responses = true) :
    (runDraws s responses).drawnCards = s.drawnCards ++ (responses.map DrawData.cards).flatten
      ∧ (runDraws s responses).drawnCards.length
        = s.drawnCards.length + (responses.map fun data => data.cards.length).sum := by
  induction responses generalizing s with
  | nil => simp [runDraws]
  | cons data later ih =>
    simp only [drawsSucceed, Bool.and_eq_true] at hall
    obtain ⟨⟨hfetched, -⟩, hlater⟩ := hall
    obtain ⟨hcards, hlen⟩ := ih _ hlater
    have hone := runDrawCard_fetched_drawnCards s data hfetched
    constructor
    · simp [runDraws, hcards, hone, List.append_assoc]
    · simp [runDraws, hlen, hone, Nat.add_assoc]

theorem runDraws_appends_in_order_witness :
    drawsSucceed idleFull
        [{ remaining := 51, cards := [aceOfSpades] }, { remaining := 50, cards := [kingOfHearts] }]
        = true
      ∧ (runDraws idleFull
        [{ remaining := 51, cards := [aceOfSpades] }, { remaining := 50, cards := [kingOfHearts] }]
        ).drawnCards = [aceOfSpades, kingOfHearts] :=
  ⟨by decide, (runDraws_appends_in_order idleFull
    [{ remaining := 51, cards := [aceOfSpades] }, { remaining := 50, cards := [kingOfHearts] }]
    (by decide)).1⟩

/-- C4: with a deck, `shuffleDeck` receiving a response whose `success` is
false leaves `deck` and `drawnCards` as they are in the state before the call,
shows the alert "Error: could not shuffle the deck.", returns normally and ends
with `isLoading` false. -/
theorem shuffleDeck_refused_keeps_state (s : AppState) (d : Deck) (data : ShuffleData)
    (hdeck : s.deck = some d) (hrej : data.success = false) :
    (runShuffleDeck s (.ok data)).state.deck = s.deck
      ∧ (runShuffleDeck s (.ok data)).state.drawnCards = s.drawnCards
      ∧ (runShuffleDeck s (.ok data)).state.isLoading = false
      ∧ (runShuffleDeck s (.ok data)).effects
        = [.fetch (shuffleUrl d.deck_id), .alert "Error: could not shuffle the deck."]
      ∧ (runShuffleDeck s (.ok data)).outcome = .fulfilled := by
  rw [runShuffleDeck_refused s d data hdeck hrej]
  exact ⟨rfl, rfl, rfl, rfl, rfl⟩

theorem shuffleDeck_refused_keeps_state_witness :
    (runShuffleDeck busyOne (.ok { success := false, remaining := 52 })).state.deck = busyOne.deck
      ∧ (runShuffleDeck busyOne (.ok { success := false, remaining := 52 })).state.drawnCards
        = [aceOfSpades]
      ∧ (runShuffleDeck busyOne (.ok { success := false, remaining := 52 })).state.isLoading = false :=
  have h := shuffleDeck_refused_keeps_state busyOne { freshDeck with remaining := 51 }
    { success := false, remaining := 52 } rfl rfl
  ⟨h.1, h.2.1, h.2.2.1⟩

/-- C5: `drawnCards` is emptied by a successful `fetchNewDeck` and by a
successful `shuffleDeck` (a deck exists, the response has `success` true),
whatever it held; after every other run (`drawCard` with any reply,
`shuffleDeck` with a refusing or failed reply or without a deck, `fetchNewDeck`
with a failed reply) the previous `drawnCards` is an initial segment of the new
one. -/
theorem drawnCards_cleared_or_extended (s : AppState) :
    (∀ data : Deck, (runFetchNewDeck s (.ok data)).state.drawnCards = [])
      ∧ (∀ data : ShuffleData, s.deck ≠ none → data.success = true →
        (runShuffleDeck s (.ok data)).state.drawnCards = [])
      ∧ (∀ reply : Reply DrawData, s.drawnCards <+: (runDrawCard s reply).state.drawnCards)
      ∧ (∀ data : ShuffleData, data.success = false →
        s.drawnCards <+: (runShuffleDeck s (.ok data)).state.drawnCards)
      ∧ (∀ error : String, s.drawnCards <+: (runShuffleDeck s (.failed error)).state.drawnCards)
      ∧ (∀ reply : Reply ShuffleData, s.deck = none →
        s.drawnCards <+: (runShuffleDeck s reply).state.drawnCards)
      ∧ (∀ error : String, s.drawnCards <+: (runFetchNewDeck s (.failed error)).state.drawnCards) := by
  refine ⟨fun data => ?_, fun data hdeck hsucc => ?_, fun reply => ?_, fun data hrej => ?_,
    fun error => ?_, fun reply hnone => ?_, fun error => ?_⟩
  · rw [runFetchNewDeck_ok]
  · obtain ⟨d, hd⟩ := exists_deck_of_ne_none hdeck
    rw [runShuffleDeck_ok s d data hd hsucc]
  · cases hdeck : s.deck with
    | none => rw [runDrawCard_none s reply hdeck]
    | some d =>
      by_cases hzero : d.remaining = 0
      · rw [runDrawCard_zero s d reply hdeck hzero]
      · cases reply with
        | ok data => rw [runDrawCard_ok s d data hdeck hzero]; exact List.prefix_append _ _
        | failed error => rw [runDrawCard_failed s d error hdeck hzero]
  · cases hdeck : s.deck with
    | none => rw [runShuffleDeck_none s _ hdeck]
    | some d => rw [runShuffleDeck_refused s d data hdeck hrej]
  · cases hdeck : s.deck with
    | none => rw [runShuffleDeck_none s _ hdeck]
    | some d => rw [runShuffleDeck_failed s d error hdeck]
  · rw [runShuffleDeck_none s reply hnone]
  · rw [runFetchNewDeck_failed]

theorem drawnCards_cleared_or_extended_witness :
    (runFetchNewDeck busyOne (.ok freshDeck)).state.drawnCards = []
      ∧ (runShuffleDeck busyOne (.ok { success := true, remaining := 52 })).state.drawnCards = []
      ∧ busyOne.drawnCards
        <+: (runDrawCard busyOne (.ok { remaining := 50, cards := [kingOfHearts] })).state.drawnCards
      ∧ busyOne.drawnCards
        <+: (runShuffleDeck busyOne (.ok { success := false, remaining := 52 })).state.drawnCards :=
  ⟨(drawnCards_cleared_or_extended busyOne).1 freshDeck,
   (drawnCards_cleared_or_extended busyOne).2.1 { success := true, remaining := 52 }
     (by decide) rfl,
   (drawnCards_cleared_or_extended busyOne).2.2.1 (.ok { remaining := 50, cards := [kingOfHearts] }),
   (drawnCards_cleared_or_extended busyOne).2.2.2.1 { success := false, remaining := 52 } rfl⟩

/-- C6, as the code has it: the handlers do not look at `isLoading`. In a state
with `isLoading` true the two buttons are rendered disabled, and that is the
only gate: invoked all the same, `fetchNewDeck` and `shuffleDeck` run exactly as
from the same state with `isLoading` false, `drawCard` has the same effects,
outcome, `deck` and `drawnCards`, and each issues its one request
(`fetchNewDeck` always, `shuffleDeck` with a deck, `drawCard` with a deck whose
`remaining` is not 0). -/
theorem busy_gated_by_buttons_only (s : AppState) (hbusy : s.isLoading = true) :
    (App s).drawButton.disabled = true
      ∧ (App s).shuffleButton.disabled = true
      ∧ (∀ reply, runFetchNewDeck s reply = runFetchNewDeck { s with isLoading := false } reply)
      ∧ (∀ reply, runShuffleDeck s reply = runShuffleDeck { s with isLoading := false } reply)
      ∧ (∀ reply,
          (runDrawCard s reply).effects = (runDrawCard { s with isLoading := false } reply).effects
          ∧ (runDrawCard s reply).outcome = (runDrawCard { s with isLoading := false } reply).outcome
          ∧ (runDrawCard s reply).state.deck
            = (runDrawCard { s with isLoading := false } reply).state.deck
          ∧ (runDrawCard s reply).state.drawnCards
            = (runDrawCard { s with isLoading := false } reply).state.drawnCards)
      ∧ (∀ reply, (runFetchNewDeck s reply).fetchCount = 1)
      ∧ (∀ reply, s.deck ≠ none → (runShuffleDeck s reply).fetchCount = 1)
      ∧ (∀ reply d, s.deck = some d → d.remaining ≠ 0 → (runDrawCard s reply).fetchCount = 1) := by
  obtain ⟨deck, drawn, loading⟩ := s
  simp only at hbusy
  subst hbusy
  refine ⟨rfl, rfl, fun reply => ?_, fun reply => ?_, fun reply => ?_, fun reply => ?_,
    fun reply hdeck => ?_, fun reply d hdeck hpos => ?_⟩
  · cases reply <;> simp [runFetchNewDeck, fetchNewDeck, Async.complete]
  · cases deck <;> cases reply <;> simp [runShuffleDeck, shuffleDeck, Async.complete]
  · cases deck with
    | none => simp [runDrawCard, drawCard, Async.complete]
    | some d =>
      by_cases hzero : d.remaining = 0
      · simp [runDrawCard, drawCard, Async.complete, hzero]
      · cases reply <;> simp [runDrawCard, drawCard, Async.complete, hzero]
  · cases reply <;> simp [runFetchNewDeck, fetchNewDeck, Async.complete, Run.fetchCount]
  · obtain ⟨d, hd⟩ := exists_deck_of_ne_none hdeck
    simp only at hd
    subst hd
    cases reply with
    | failed error => simp [runShuffleDeck, shuffleDeck, Async.complete, Run.fetchCount]
    | ok data =>
      cases hsucc : data.success <;>
        simp [runShuffleDeck, shuffleDeck, Async.complete, Run.fetchCount, hsucc]
  · simp only at hdeck
    subst hdeck
    cases reply <;> simp [runDrawCard, drawCard, Async.complete, Run.fetchCount, hpos]

theorem busy_gated_by_buttons_only_witness :
    busyOne.isLoading = true
      ∧ (App busyOne).drawButton.disabled = true
      ∧ (App busyOne).shuffleButton.disabled = true
      ∧ (runDrawCard busyOne (.ok { remaining := 50, cards := [kingOfHearts] })).fetchCount = 1 :=
  have h := busy_gated_by_buttons_only busyOne rfl
  ⟨rfl, h.1, h.2.1,
   h.2.2.2.2.2.2.2 (.ok { remaining := 50, cards := [kingOfHearts] })
     { freshDeck with remaining := 51 } rfl (by decide)⟩

/-- C6 fails: in a state with `isLoading` true, a deck of 51 and one card shown,
`drawCard` issues its request and, on the response, changes `deck`,
`drawnCards` and `isLoading`; `fetchNewDeck` and `shuffleDeck` issue their
requests too. -/
theorem busy_handlers_still_fetch :
    (runDrawCard busyOne (.ok { remaining := 50, cards := [kingOfHearts] })).effects
        = [.fetch "https://deckofcardsapi.com/api/deck/abc/draw/?count=1"]
      ∧ (runDrawCard busyOne (.ok { remaining := 50, cards := [kingOfHearts] })).state
        = { deck := some { freshDeck with remaining := 50 }
            drawnCards := [aceOfSpades, kingOfHearts]
            isLoading := false }
      ∧ (runDrawCard busyOne (.ok { remaining := 50, cards := [kingOfHearts] })).state ≠ busyOne
      ∧ (runShuffleDeck busyOne (.ok { success := true, remaining := 52 })).effects
        = [.fetch "https://deckofcardsapi.com/api/deck/abc/shuffle/"]
      ∧ (runShuffleDeck busyOne (.ok { success := true, remaining := 52 })).state ≠ busyOne
      ∧ (runFetchNewDeck busyOne (.ok freshDeck)).effects
        = [.fetch "https://deckofcardsapi.com/api/deck/new/shuffle/?deck_count=1"]
      ∧ (runFetchNewDeck busyOne (.ok freshDeck)).state ≠ busyOne := by
  decide

/-- C7, as the code has it: when the request of an operation fails, `deck` and
`drawnCards` stay as they were, `isLoading` stays true (no handler resets it on
that path), the request is the only effect, and the failure rejects the promise
of the handler instead of being returned as a value. This holds for
`fetchNewDeck` in every state, for `drawCard` with a deck whose `remaining` is
not 0, and for `shuffleDeck` with a deck (the states in which a request is
issued). -/
theorem failed_request_rejects_and_stays_loading (s : AppState) (error : String) :
    runFetchNewDeck s (.failed error)
        = { state := { deck := s.deck, drawnCards := s.drawnCards, isLoading := true }
            effects := [.fetch newDeckUrl]
            outcome := .rejected (.remote error) }
      ∧ (∀ d, s.deck = some d → d.remaining ≠ 0 →
        runDrawCard s (.failed error)
          = { state := { deck := s.deck, drawnCards := s.drawnCards, isLoading := true }
              effects := [.fetch (drawUrl d.deck_id)]
              outcome := .rejected (.remote error) })
      ∧ (∀ d, s.deck = some d →
        runShuffleDeck s (.failed error)
          = { state := { deck := s.deck, drawnCards := s.drawnCards, isLoading := true }
              effects := [.fetch (shuffleUrl d.deck_id)]
              outcome := .rejected (.remote error) }) :=
  ⟨runFetchNewDeck_failed s error,
   fun d hdeck hpos => runDrawCard_failed s d error hdeck hpos,
   fun d hdeck => runShuffleDeck_failed s d error hdeck⟩

theorem failed_request_rejects_and_stays_loading_witness :
    (runFetchNewDeck idleFull (.failed "Failed to fetch")).state.isLoading = true
      ∧ (runDrawCard idleFull (.failed "Failed to fetch")).state
        = { idleFull with isLoading := true }
      ∧ (runShuffleDeck idleFull (.failed "Failed to fetch")).outcome
        = .rejected (.remote "Failed to fetch") :=
  have h := failed_request_rejects_and_stays_loading idleFull "Failed to fetch"
  ⟨congrArg (fun r => r.state.isLoading) h.1,
   congrArg Run.state (h.2.1 freshDeck rfl (by decide)),
   congrArg Run.outcome (h.2.2 freshDeck rfl)⟩

/-- C7 fails: from idle hooks with a full deck, each of the three operations
whose request fails ends with `isLoading` true, and its promise is rejected
with the failure of the request. -/
theorem failed_request_leaves_loading :
    (runFetchNewDeck idleFull (.failed "Failed to fetch")).state.isLoading = true
      ∧ (runFetchNewDeck idleFull (.failed "Failed to fetch")).outcome
        = .rejected (.remote "Failed to fetch")
      ∧ (runDrawCard idleFull (.failed "Failed to fetch")).state.isLoading = true
      ∧ (runDrawCard idleFull (.failed "Failed to fetch")).outcome
        = .rejected (.remote "Failed to fetch")
      ∧ (runShuffleDeck idleFull (.failed "Failed to fetch")).state.isLoading = true
      ∧ (runShuffleDeck idleFull (.failed "Failed to fetch")).outcome
        = .rejected (.remote "Failed to fetch") := by
  decide

/-- C8: with a deck, after `drawCard` or `shuffleDeck` with any reply the deck
is the previous deck object with at most `remaining` replaced, so its `deck_id`
is the one before; a failed `fetchNewDeck` leaves the deck as it is, and a
successful `fetchNewDeck` puts the deck of the response, with its `deck_id`. -/
theorem deck_id_kept_by_draw_and_shuffle (s : AppState) (d : Deck) (hdeck : s.deck = some d) :
    (∀ reply : Reply DrawData,
        (∃ n, (runDrawCard s reply).state.deck = some { d with remaining := n })
        ∧ (runDrawCard s reply).state.deck.map Deck.deck_id = some d.deck_id)
      ∧ (∀ reply : Reply ShuffleData,
        (∃ n, (runShuffleDeck s reply).state.deck = some { d with remaining := n })
        ∧ (runShuffleDeck s reply).state.deck.map Deck.deck_id = some d.deck_id)
      ∧ (∀ error : String, (runFetchNewDeck s (.failed error)).state.deck = some d)
      ∧ (∀ data : Deck,
        (runFetchNewDeck s (.ok data)).state.deck = some data
        ∧ (runFetchNewDeck s (.ok data)).state.deck.map Deck.deck_id = some data.deck_id) := by
  refine ⟨fun reply => ?_, fun reply => ?_, fun error => ?_, fun data => ?_⟩
  · by_cases hzero : d.remaining = 0
    · rw [runDrawCard_zero s d reply hdeck hzero]
      exact ⟨⟨d.remaining, hdeck⟩, by simp [hdeck]⟩
    · cases reply with
      | ok data =>
        rw [runDrawCard_ok s d data hdeck hzero]
        exact ⟨⟨data.remaining, rfl⟩, rfl⟩
      | failed error =>
        rw [runDrawCard_failed s d error hdeck hzero]
        exact ⟨⟨d.remaining, hdeck⟩, by simp [hdeck]⟩
  · cases reply with
    | failed error =>
      rw [runShuffleDeck_failed s d error hdeck]
      exact ⟨⟨d.remaining, hdeck⟩, by simp [hdeck]⟩
    | ok data =>
      cases hsucc : data.success with
      | true =>
        rw [runShuffleDeck_ok s d data hdeck hsucc]
        exact ⟨⟨data.remaining, rfl⟩, rfl⟩
      | false =>
        rw [runShuffleDeck_refused s d data hdeck hsucc]
        exact ⟨⟨d.remaining, hdeck⟩, by simp [hdeck]⟩
  · rw [runFetchNewDeck_failed]
    exact hdeck
  · rw [runFetchNewDeck_ok]
    exact ⟨rfl, rfl⟩

theorem deck_id_kept_by_draw_and_shuffle_witness :
    busyOne.deck = some { freshDeck with remaining := 51 }
      ∧ (runDrawCard busyOne (.ok { remaining := 50, cards := [kingOfHearts] })).state.deck.map
        Deck.deck_id = some "abc"
      ∧ (runShuffleDeck busyOne (.ok { success := true, remaining := 52 })).state.deck.map
        Deck.deck_id = some "abc"
      ∧ (runFetchNewDeck busyOne (.ok { deck_id := "xyz", remaining := 52, rest := [] })).state.deck.map
        Deck.deck_id = some "xyz" :=
  have h := deck_id_kept_by_draw_and_shuffle busyOne { freshDeck with remaining := 51 } rfl
  ⟨rfl, (h.1 (.ok { remaining := 50, cards := [kingOfHearts] })).2,
   (h.2.1 (.ok { success := true, remaining := 52 })).2,
   (h.2.2.2 { deck_id := "xyz", remaining := 52, rest := [] }).2⟩

/-- C9: in the render of every state, the `disabled` attribute of the draw
button and of the shuffle button is the value of `isLoading`: both are disabled
when it is true and both enabled when it is false, whatever `deck` and
`drawnCards` hold. -/
theorem buttons_disabled_iff_loading (s : AppState) :
    (App s).drawButton.disabled = s.isLoading
      ∧ (App s).shuffleButton.disabled = s.isLoading
      ∧ (∀ deck drawn, (App { s with deck := deck, drawnCards := drawn }).drawButton.disabled
          = (App s).drawButton.disabled
        ∧ (App { s with deck := deck, drawnCards := drawn }).shuffleButton.disabled
          = (App s).shuffleButton.disabled) :=
  ⟨rfl, rfl, fun _ _ => ⟨rfl, rfl⟩⟩

/-! ## The invariant -/

theorem fetchNewDeck_resume_keepsDeck (reply : Reply Deck) (cur : AppState)
    (state : AppState) (url : String) (resume : Reply Deck → AppState → Run) (s : AppState)
    (hk : fetchNewDeck s = .awaiting state url resume) :
    (cur.deck ≠ none → (resume reply cur).state.deck ≠ none)
      ∧ (cur.isLoading = true →
        (resume reply cur).state.deck ≠ none ∨ (resume reply cur).state.isLoading = true) := by
  simp only [fetchNewDeck, Async.awaiting.injEq] at hk
  obtain ⟨-, -, rfl⟩ := hk
  cases reply with
  | ok data => simp
  | failed error => exact ⟨fun h => h, fun h => Or.inr h⟩

theorem Session.mounted_inv : Session.mounted.Inv := by
  have hk := fun reply cur =>
    fetchNewDeck_resume_keepsDeck reply cur _ _ _ initialState rfl
  refine ⟨?_, Or.inr ⟨rfl, ?_⟩⟩
  · intro p hp
    simp only [Session.mounted, Session.launch, fetchNewDeck, List.mem_singleton] at hp
    subst hp
    exact fun r cur => (hk r cur).1
  · intro p hp
    simp only [Session.mounted, Session.launch, fetchNewDeck, List.mem_singleton] at hp
    subst hp
    exact fun r cur => (hk r cur).2

theorem Session.launch_drawCard_inv (c : Session) (hinv : c.Inv) (hdeck : c.app.deck ≠ none) :
    (c.launch (drawCard c.app.deck c.app)).Inv := by
  obtain ⟨d, hd⟩ := exists_deck_of_ne_none hdeck
  by_cases hzero : d.remaining = 0
  · simpa [drawCard, hd, hzero, Session.launch, Session.Inv] using hinv
  · simp only [drawCard, hd, hzero, if_false, Session.launch]
    refine ⟨?_, Or.inl (by simp [hd])⟩
    intro p hp
    rcases List.mem_cons.mp hp with rfl | hp
    · intro r cur _
      cases r <;> simp_all
    · exact hinv.1 p hp

theorem Session.launch_shuffleDeck_inv (c : Session) (hinv : c.Inv) (hdeck : c.app.deck ≠ none) :
    (c.launch (shuffleDeck c.app.deck c.app)).Inv := by
  obtain ⟨d, hd⟩ := exists_deck_of_ne_none hdeck
  simp only [shuffleDeck, hd, Session.launch]
  refine ⟨?_, Or.inl (by simp [hd])⟩
  intro p hp
  rcases List.mem_cons.mp hp with rfl | hp
  · intro r cur hcur
    cases r with
    | failed error => simpa using hcur
    | ok data => cases hsucc : data.success <;> simp_all
  · exact hinv.1 p hp

theorem Session.Inv.idle_has_deck {c : Session} (hinv : c.Inv) (hidle : c.app.isLoading = false) :
    c.app.deck ≠ none := by
  rcases hinv.2 with h | ⟨h, -⟩
  · exact h
  · rw [hidle] at h
    exact absurd h (by decide)

theorem Step.preserves_inv {c next : Session} (hstep : Step c next) (hinv : c.Inv) : next.Inv := by
  cases hstep with
  | clickDraw enabled => exact Session.launch_drawCard_inv c hinv (hinv.idle_has_deck enabled)
  | clickShuffle enabled => exact Session.launch_shuffleDeck_inv c hinv (hinv.idle_has_deck enabled)
  | reply before p after inFlight r =>
    have hmem : p ∈ c.pending := by simp [inFlight]
    have hsub : ∀ q ∈ before ++ after, q ∈ c.pending := by
      intro q hq
      rw [inFlight]
      rcases List.mem_append.mp hq with h | h
      · exact List.mem_append_left _ h
      · exact List.mem_append_right _ (List.mem_cons_of_mem _ h)
    refine ⟨fun q hq => hinv.1 q (hsub q hq), ?_⟩
    rcases hinv.2 with hdeck | ⟨hload, hpend⟩
    · exact Or.inl (hinv.1 p hmem r c.app hdeck)
    · rcases hpend p hmem r c.app hload with h | h
      · exact Or.inl h
      · exact Or.inr ⟨h, fun q hq => hpend q (hsub q hq)⟩

theorem Reachable.inv {c : Session} (hreach : Reachable c) : c.Inv := by
  induction hreach with
  | refl => exact Session.mounted_inv
  | tail _ hstep ih => exact hstep.preserves_inv ih

/-- C10: in every session the mounted component reaches (first render on
`deck = null`, `drawnCards = []`, `isLoading = false`, then the mount effect
invoking `fetchNewDeck`, then any clicks on buttons that are not disabled and
any replies to the handlers in flight), `isLoading` false implies that a deck
exists; so whenever a button is enabled, the `drawCard` or `shuffleDeck` it
invokes does not fail on a `null` deck, whatever reply follows. -/
theorem idle_implies_deck_exists (c : Session) (hreach : Reachable c) :
    (c.app.isLoading = false → c.app.deck ≠ none)
      ∧ ((App c.app).drawButton.disabled = false → ∀ reply,
        (((App c.app).drawButton.onClick c.app).complete reply).outcome ≠ .rejected .nullDeck)
      ∧ ((App c.app).shuffleButton.disabled = false → ∀ reply,
        (((App c.app).shuffleButton.onClick c.app).complete reply).outcome
          ≠ .rejected .nullDeck) := by
  have hinv := hreach.inv
  refine ⟨hinv.idle_has_deck, fun enabled reply => ?_, fun enabled reply => ?_⟩
  · obtain ⟨d, hd⟩ := exists_deck_of_ne_none (hinv.idle_has_deck enabled)
    show (runDrawCard c.app reply).outcome ≠ _
    by_cases hzero : d.remaining = 0
    · rw [runDrawCard_zero c.app d reply hd hzero]; simp
    · cases reply with
      | ok data => rw [runDrawCard_ok c.app d data hd hzero]; simp
      | failed error => rw [runDrawCard_failed c.app d error hd hzero]; simp
  · obtain ⟨d, hd⟩ := exists_deck_of_ne_none (hinv.idle_has_deck enabled)
    show (runShuffleDeck c.app reply).outcome ≠ _
    cases reply with
    | failed error => rw [runShuffleDeck_failed c.app d error hd]; simp
    | ok data =>
      cases hsucc : data.success with
      | true => rw [runShuffleDeck_ok c.app d data hd hsucc]; simp
      | false => rw [runShuffleDeck_refused c.app d data hd hsucc]; simp

theorem idle_implies_deck_exists_witness :
    Reachable readySession
      ∧ readySession.app.isLoading = false
      ∧ readySession.app.deck ≠ none :=
  have hreach : Reachable readySession :=
    Relation.ReflTransGen.single
      (Step.reply Session.mounted [] ⟨Deck, _⟩ [] rfl
        (.ok { deck_id := "abc", remaining := 52, rest := [] }))
  ⟨hreach, rfl, (idle_implies_deck_exists readySession hreach).1 rfl⟩

end CardDeck
